import Mathlib

/-!
Verification of the time-sync MCP server (`src/server.py`).

The server is a stateless JSON-RPC-flavored dispatcher over four time tools.
This file gives a shallow embedding of the dispatcher (`handle_request`,
`call_tool`) and of the platform time facilities it delegates to
(`datetime.now`, `datetime.fromtimestamp`, `datetime.fromisoformat`,
`isoformat`, `strftime`, `pytz.timezone`), and proves the specification
claims about it.

Modeling conventions:
* JSON values are `JValue`; Python dynamic attribute/type errors are an
  explicit `Except PyError` exception monad.
* Python `float` arithmetic is idealized as exact rational arithmetic.
  Rational operations are re-derived from `Rat.divInt` so that they reduce
  (the library field operations on `ℚ` are irreducible).
* A Python `datetime` stores civil wall-clock fields plus an optional fixed
  UTC offset, as the real object does.  The platform timezone database is an
  opaque parameter mapping zone names to offsets.
* `json.dumps` of a tool payload into the `content[0].text` string is the
  out-of-scope transport encoding; the payload is carried structurally.
-/

namespace TimeSync

/-! ## Rational helpers (reducible replacements for the field operations) -/

/-- Exact rational multiplication, via `Rat.divInt` so that it evaluates. -/
def ratMul (a b : ℚ) : ℚ := Rat.divInt (a.num * b.num) ((a.den : Int) * (b.den : Int))

/-- Exact rational division (division by zero yields zero, as in `Rat.div`). -/
def ratDiv (a b : ℚ) : ℚ := Rat.divInt (a.num * (b.den : Int)) (b.num * (a.den : Int))

/-- Python `int(x)`: truncation toward zero. -/
def pyTrunc (q : ℚ) : Int := Int.tdiv q.num q.den

/-- Rounding to the nearest integer (half away from zero upward); used for the
microsecond rounding of `fromtimestamp`. -/
def ratRound (q : ℚ) : Int := Int.fdiv (2 * q.num + (q.den : Int)) (2 * (q.den : Int))

/-! ## Decimal digits and fixed-width rendering -/

def digitChar (d : Nat) : Char := Char.ofNat (48 + d)

def isDigit (c : Char) : Bool := 48 ≤ c.toNat && c.toNat ≤ 57

def digitVal (c : Char) : Nat := c.toNat - 48

def digits2 (n : Nat) : List Char := [digitChar (n / 10 % 10), digitChar (n % 10)]

def digits4 (n : Nat) : List Char :=
  [digitChar (n / 1000 % 10), digitChar (n / 100 % 10), digitChar (n / 10 % 10), digitChar (n % 10)]

def digits6 (n : Nat) : List Char :=
  [digitChar (n / 100000 % 10), digitChar (n / 10000 % 10), digitChar (n / 1000 % 10),
   digitChar (n / 100 % 10), digitChar (n / 10 % 10), digitChar (n % 10)]

def digitsToNat (l : List Char) : Nat := l.foldl (fun acc c => acc * 10 + digitVal c) 0

/-! ## Proleptic Gregorian calendar conversions

These model the conversions the platform `datetime` library performs between
epoch-based and civil representations (era-based algorithm). -/

/-- Civil date `(year, month, day)` from days since 1970-01-01. -/
def civilFromDays (z0 : Int) : Int × Nat × Nat :=
  let z : Int := z0 + 719468
  let era : Int := Int.fdiv z 146097
  let doe : Nat := (z - era * 146097).toNat
  let yoe : Nat := (doe - doe / 1460 + doe / 36524 - doe / 146096) / 365
  let doy : Nat := doe - (365 * yoe + yoe / 4 - yoe / 100)
  let mp : Nat := (5 * doy + 2) / 153
  let d : Nat := doy - (153 * mp + 2) / 5 + 1
  let m : Nat := if mp < 10 then mp + 3 else mp - 9
  (era * 400 + (yoe : Int) + (if m ≤ 2 then 1 else 0), m, d)

/-- Days since 1970-01-01 from a civil date (inverse conversion). -/
def daysFromCivil (y : Int) (m d : Nat) : Int :=
  let y1 : Int := if m ≤ 2 then y - 1 else y
  let era : Int := Int.fdiv y1 400
  let yoe : Nat := (y1 - era * 400).toNat
  let mp : Nat := if 2 < m then m - 3 else m + 9
  let doy : Nat := (153 * mp + 2) / 5 + d - 1
  let doe : Nat := yoe * 365 + yoe / 4 - yoe / 100 + doy
  era * 146097 + (doe : Int) - 719468

/-- Day count of a month in the Gregorian calendar. -/
def daysInMonth (y m : Nat) : Nat :=
  if m = 2 then (if y % 4 = 0 ∧ (y % 100 ≠ 0 ∨ y % 400 = 0) then 29 else 28)
  else if m = 4 ∨ m = 6 ∨ m = 9 ∨ m = 11 then 30 else 31

/-! ## The modeled Python pieces -/

/-- Python exceptions the dispatcher can see.  `PyError.str` renders the
message text (`pytz` renders the unknown zone name; Python additionally wraps
it in quote marks, elided here). -/
inductive PyError where
  | attributeError (msg : String)
  | typeError (msg : String)
  | valueError (msg : String)
  | unknownTimeZoneError (zone : String)
deriving DecidableEq

def PyError.str : PyError → String
  | .attributeError m => m
  | .typeError m => m
  | .valueError m => m
  | .unknownTimeZoneError z => z

/-- Model of `datetime.datetime`: civil wall-clock fields plus an optional
fixed UTC offset in seconds (`none` = naive datetime). -/
structure PyDatetime where
  year : Nat
  month : Nat
  day : Nat
  hour : Nat
  minute : Nat
  second : Nat
  usec : Nat
  offsetSec : Option Int
deriving DecidableEq

/-- Wall-clock reading in microseconds since 1970-01-01T00:00:00 of the
datetime's own clock face. -/
def PyDatetime.wallUsec (dt : PyDatetime) : Int :=
  daysFromCivil dt.year dt.month dt.day * 86400000000
    + ((dt.hour * 3600 + dt.minute * 60 + dt.second : Nat) : Int) * 1000000 + (dt.usec : Int)

/-- Datetime whose wall clock shows the given microsecond reading. -/
def dtOfWallUsec (wall : Int) (off : Option Int) : PyDatetime :=
  let sec : Int := Int.fdiv wall 1000000
  let us : Nat := (wall - sec * 1000000).toNat
  let days : Int := Int.fdiv sec 86400
  let sod : Nat := (sec - days * 86400).toNat
  let c := civilFromDays days
  { year := c.1.toNat, month := c.2.1, day := c.2.2,
    hour := sod / 3600, minute := sod % 3600 / 60, second := sod % 60,
    usec := us, offsetSec := off }

/-- External platform state the server reads: the current instant (microseconds
since the epoch), the timezone database (zone name to fixed UTC offset in
seconds; an opaque trusted dependency), and the offset of the server's local
zone. -/
structure Env where
  nowEpochUsec : Int
  tzdb : String → Option Int
  localOffsetSec : Int

/-- Python `datetime.now()` (naive, local wall clock). -/
def pyNowNaive (env : Env) : PyDatetime :=
  dtOfWallUsec (env.nowEpochUsec + env.localOffsetSec * 1000000) none

/-- Python `datetime.now(tz)` for a zone with offset `off`. -/
def pyNowTz (env : Env) (off : Int) : PyDatetime :=
  dtOfWallUsec (env.nowEpochUsec + off * 1000000) (some off)

/-- Epoch microseconds denoted by a datetime: aware datetimes subtract their
own offset, naive ones are interpreted in the server's local zone, as
`datetime.timestamp()` does. -/
def PyDatetime.epochUsec (dt : PyDatetime) (env : Env) : Int :=
  match dt.offsetSec with
  | some off => dt.wallUsec - off * 1000000
  | none => dt.wallUsec - env.localOffsetSec * 1000000

/-- Python `datetime.timestamp()` (exact rational seconds). -/
def PyDatetime.timestampQ (dt : PyDatetime) (env : Env) : ℚ :=
  ratDiv ((dt.epochUsec env : Int) : ℚ) 1000000

/-- Wall-microsecond value of 0001-01-01T00:00:00, the smallest representable
datetime. -/
def minWallUsec : Int := (-719162) * 86400000000

/-- Wall-microsecond value of 10000-01-01T00:00:00, one past the largest
representable datetime. -/
def maxWallUsec : Int := 2932897 * 86400000000

/-- Python `datetime.fromtimestamp(ts, tz)` for a fixed-offset zone; raises
outside the representable year range 1..9999. -/
def pyFromtimestamp (ts : ℚ) (off : Int) : Except PyError PyDatetime :=
  let wall : Int := ratRound (ratMul ts 1000000) + off * 1000000
  if minWallUsec ≤ wall ∧ wall < maxWallUsec then
    .ok (dtOfWallUsec wall (some off))
  else
    .error (.valueError "timestamp out of range for platform time_t")

/-- Rendering of the trailing UTC offset of `isoformat` (sign, then HH:MM;
sub-minute offset components do not occur in the modeled zone database). -/
def offsetChars : Option Int → List Char
  | none => []
  | some off =>
    (if off < 0 then '-' else '+')
      :: (digits2 (off.natAbs / 3600) ++ ':' :: digits2 (off.natAbs % 3600 / 60))

/-- Python `datetime.isoformat()`: fixed-width civil fields, fractional part
only when the microseconds are nonzero, trailing offset when aware. -/
def PyDatetime.isoformat (dt : PyDatetime) : String :=
  String.mk (digits4 dt.year ++ '-' :: digits2 dt.month ++ '-' :: digits2 dt.day
    ++ 'T' :: digits2 dt.hour ++ ':' :: digits2 dt.minute ++ ':' :: digits2 dt.second
    ++ (if dt.usec = 0 then [] else '.' :: digits6 dt.usec)
    ++ offsetChars dt.offsetSec)

/-- Python `strftime("%Y-%m-%d %H:%M:%S")`. -/
def PyDatetime.strftimeYmdHms (dt : PyDatetime) : String :=
  String.mk (digits4 dt.year ++ '-' :: digits2 dt.month ++ '-' :: digits2 dt.day
    ++ ' ' :: digits2 dt.hour ++ ':' :: digits2 dt.minute ++ ':' :: digits2 dt.second)

def parse2 (a b : Char) : Option Nat :=
  if isDigit a && isDigit b then some (digitVal a * 10 + digitVal b) else none

def parse4 (a b c d : Char) : Option Nat :=
  if isDigit a && isDigit b && isDigit c && isDigit d then
    some (digitVal a * 1000 + digitVal b * 100 + digitVal c * 10 + digitVal d)
  else none

/-- Trailing timezone designator: empty (naive) or a signed HH:MM offset. -/
def parseOffsetPart : List Char → Option (Option Int)
  | [] => some none
  | ['+', h1, h2, ':', m1, m2] => do
      let h ← parse2 h1 h2
      let m ← parse2 m1 m2
      if h < 24 && m < 60 then some (some ((h * 3600 + m * 60 : Nat) : Int)) else none
  | ['-', h1, h2, ':', m1, m2] => do
      let h ← parse2 h1 h2
      let m ← parse2 m1 m2
      if h < 24 && m < 60 then some (some (-((h * 3600 + m * 60 : Nat) : Int))) else none
  | _ => none

/-- Optional fractional-seconds part (a dot with exactly three or six digits),
followed by the offset designator. -/
def parseFracAndOffset : List Char → Option (Nat × Option Int)
  | '.' :: rest =>
      let ds := rest.takeWhile isDigit
      let tail := rest.dropWhile isDigit
      if ds.length = 6 then do
        let off ← parseOffsetPart tail
        some (digitsToNat ds, off)
      else if ds.length = 3 then do
        let off ← parseOffsetPart tail
        some (digitsToNat ds * 1000, off)
      else none
  | rest => do
      let off ← parseOffsetPart rest
      some (0, off)

/-- Python `datetime.fromisoformat` on the grammar the server relies on:
`YYYY-MM-DD<sep>HH:MM:SS[.fff|.ffffff][±HH:MM]` with any single separator
character, validated field ranges, no literal `Z` (the caller replaces it). -/
def fromisoformat (s : String) : Option PyDatetime :=
  match s.data with
  | y1 :: y2 :: y3 :: y4 :: '-' :: m1 :: m2 :: '-' :: d1 :: d2 :: _sep
      :: h1 :: h2 :: ':' :: n1 :: n2 :: ':' :: s1 :: s2 :: rest => do
    let y ← parse4 y1 y2 y3 y4
    let mo ← parse2 m1 m2
    let d ← parse2 d1 d2
    let h ← parse2 h1 h2
    let mi ← parse2 n1 n2
    let sec ← parse2 s1 s2
    let fo ← parseFracAndOffset rest
    if 1 ≤ y ∧ 1 ≤ mo ∧ mo ≤ 12 ∧ 1 ≤ d ∧ d ≤ daysInMonth y mo ∧ h < 24 ∧ mi < 60 ∧ sec < 60 then
      some { year := y, month := mo, day := d, hour := h, minute := mi, second := sec,
             usec := fo.1, offsetSec := fo.2 }
    else none
  | _ => none

/-- Python `s.replace("Z", "+00:00")` at its call site: the pattern is a single
character, so the replacement is a character-wise expansion of every
occurrence. -/
def replaceZChars : List Char → List Char
  | [] => []
  | 'Z' :: rest => '+' :: '0' :: '0' :: ':' :: '0' :: '0' :: replaceZChars rest
  | c :: rest => c :: replaceZChars rest

def pyReplaceZ (s : String) : String := String.mk (replaceZChars s.data)

/-- Python `(dt2 - dt1).total_seconds()`: defined when both datetimes are aware
or both naive; mixed operands raise TypeError (message apostrophe elided). -/
def pySubSeconds (dt2 dt1 : PyDatetime) : Except PyError ℚ :=
  match dt2.offsetSec, dt1.offsetSec with
  | some o2, some o1 =>
      .ok (ratDiv ((dt2.wallUsec - o2 * 1000000 - (dt1.wallUsec - o1 * 1000000) : Int) : ℚ) 1000000)
  | none, none => .ok (ratDiv ((dt2.wallUsec - dt1.wallUsec : Int) : ℚ) 1000000)
  | _, _ => .error (.typeError "cannot subtract offset-naive and offset-aware datetimes")

/-! ## JSON values and Python dynamic-typing helpers -/

inductive JValue where
  | jnull
  | jbool (b : Bool)
  | jnum (q : ℚ)
  | jstr (s : String)
  | jarr (items : List JValue)
  | jobj (fields : List (String × JValue))

def JValue.typeName : JValue → String
  | .jnull => "NoneType"
  | .jbool _ => "bool"
  | .jnum _ => "float"
  | .jstr _ => "str"
  | .jarr _ => "list"
  | .jobj _ => "dict"

/-- Association-list lookup with a default: `dict.get(key, default)` on a value
statically known to be a dict. -/
def alistGet (fields : List (String × JValue)) (key : String) (dflt : JValue) : JValue :=
  match fields with
  | [] => dflt
  | (k, v) :: rest => if k = key then v else alistGet rest key dflt

def alistFind (fields : List (String × JValue)) (key : String) : Option JValue :=
  match fields with
  | [] => none
  | (k, v) :: rest => if k = key then some v else alistFind rest key

/-- Python `obj.get(key, default)` on an arbitrary value: AttributeError unless
`obj` is a dict. -/
def jget (v : JValue) (key : String) (dflt : JValue) : Except PyError JValue :=
  match v with
  | .jobj fields => .ok (alistGet fields key dflt)
  | other => .error (.attributeError (other.typeName ++ " object has no attribute get"))

/-- Python truthiness, for `if ms`. -/
def jTruthy : JValue → Bool
  | .jnull => false
  | .jbool b => b
  | .jnum q => q != 0
  | .jstr s => s != ""
  | .jarr l => !l.isEmpty
  | .jobj l => !l.isEmpty

/-- Python `v == "s"` for a string literal: true only for an equal string. -/
def jeqStr (v : JValue) (s : String) : Bool :=
  match v with
  | .jstr t => t == s
  | _ => false

/-- Numeric value of an operand of `v > <int literal>`: numbers and bools
compare, anything else raises TypeError. -/
def pyNumValue (v : JValue) : Except PyError ℚ :=
  match v with
  | .jnum q => .ok q
  | .jbool b => .ok (if b then 1 else 0)
  | other =>
      .error (.typeError ("comparison not supported between instances of "
        ++ other.typeName ++ " and int"))

/-- Python `str` value of an object on which `.replace` is called: AttributeError
unless it is a string. -/
def pyStrValue (v : JValue) : Except PyError String :=
  match v with
  | .jstr s => .ok s
  | other => .error (.attributeError (other.typeName ++ " object has no attribute replace"))

/-- Python f-string rendering of an interpolated value; only the string case is
exercised by the claims (other reprs are approximated by the type name). -/
def pyFormat : JValue → String
  | .jstr s => s
  | other => other.typeName

/-- Python `pytz.timezone(v)`: looks the zone up in the platform database,
raising UnknownTimeZoneError when absent (and an attribute error on
non-string arguments). -/
def pytzTimezone (env : Env) (v : JValue) : Except PyError Int :=
  match v with
  | .jstr s =>
    match env.tzdb s with
    | some off => .ok off
    | none => .error (.unknownTimeZoneError s)
  | other => .error (.attributeError (other.typeName ++ " object has no attribute upper"))

/-! ## Responses -/

/-- Body of a JSON-RPC response: exactly one of a result object or an error
object, as every return site of the source constructs. -/
inductive Outcome where
  | success (result : JValue)
  | failure (code : Int) (message : String)

structure Response where
  id : JValue
  outcome : Outcome

/-- Wraps a tool payload as `{"content": [{"type": "text", "text": ...}]}`;
the `json.dumps` serialization of the payload into the text string is the
out-of-scope transport encoding and is carried structurally. -/
def wrapContent (payload : JValue) : JValue :=
  .jobj [("content", .jarr [.jobj [("type", .jstr "text"), ("text", payload)]])]

def Response.resultField : Response → Option JValue
  | ⟨_, .success r⟩ => some r
  | ⟨_, .failure _ _⟩ => none

def Response.errorCode : Response → Option Int
  | ⟨_, .failure c _⟩ => some c
  | ⟨_, .success _⟩ => none

def Response.errorMessage : Response → Option String
  | ⟨_, .failure _ m⟩ => some m
  | ⟨_, .success _⟩ => none

def jlookup : JValue → String → Option JValue
  | .jobj fields, key => alistFind fields key
  | _, _ => none

/-- Structured payload of a tool response: `result.content[0].text`. -/
def Response.toolPayload (r : Response) : Option JValue := do
  let res ← r.resultField
  match jlookup res "content" with
  | some (.jarr (first :: _)) => jlookup first "text"
  | _ => none

/-- String-valued field of the tool payload. -/
def Response.payloadStr (r : Response) (key : String) : Option String := do
  let p ← r.toolPayload
  match jlookup p key with
  | some (.jstr s) => some s
  | _ => none

/-- Number-valued field of the tool payload. -/
def Response.payloadNum (r : Response) (key : String) : Option ℚ := do
  let p ← r.toolPayload
  match jlookup p key with
  | some (.jnum q) => some q
  | _ => none

/-! ## The four tools (`call_tool` branches of src/server.py) -/

/-- Branch `name == "get_current_time"`: the `"UTC"` default short-circuits to a
naive `datetime.now()`; any other zone goes through `pytz`. -/
def getCurrentTimeBody (env : Env) (args : JValue) : Except PyError Outcome := do
  let timezone ← jget args "timezone" (.jstr "UTC")
  let now ← (if jeqStr timezone "UTC" then .ok (pyNowNaive env) else do
    let off ← pytzTimezone env timezone
    .ok (pyNowTz env off))
  let payload : JValue := .jobj [
    ("iso", .jstr now.isoformat),
    ("formatted", .jstr now.strftimeYmdHms),
    ("timezone", timezone),
    ("timestamp", .jnum ((pyTrunc (now.timestampQ env) : Int) : ℚ))]
  .ok (.success (wrapContent payload))

/-- Branch `name == "get_unix_timestamp"`. -/
def getUnixTimestampBody (env : Env) (args : JValue) : Except PyError Outcome := do
  let ms ← jget args "milliseconds" (.jbool false)
  let now := pyNowNaive env
  let ts : ℚ :=
    if jTruthy ms then ratMul (now.timestampQ env) 1000
    else ((pyTrunc (now.timestampQ env) : Int) : ℚ)
  .ok (.success (wrapContent (.jobj [("timestamp", .jnum ts)])))

/-- Branch `name == "format_timestamp"`: the comparison with the 10-digit
threshold happens first (raising on a missing or non-numeric timestamp), then
the zone lookup, then the conversion (seconds or milliseconds). -/
def formatTimestampBody (env : Env) (args : JValue) : Except PyError Outcome := do
  let ts ← jget args "timestamp" .jnull
  let timezone ← jget args "timezone" (.jstr "UTC")
  let tsq ← pyNumValue ts
  let dt ← (if (9999999999 : ℚ) < tsq then do
      let off ← pytzTimezone env timezone
      pyFromtimestamp (ratDiv tsq 1000) off
    else do
      let off ← pytzTimezone env timezone
      pyFromtimestamp tsq off)
  let payload : JValue := .jobj [
    ("original_timestamp", ts),
    ("formatted", .jstr dt.strftimeYmdHms),
    ("timezone", timezone),
    ("iso", .jstr dt.isoformat)]
  .ok (.success (wrapContent payload))

/-- Fixed-template human-readable difference, Chinese unit labels verbatim. -/
def humanReadableCn (days hours minutes seconds : Nat) : String :=
  toString days ++ "天 " ++ toString hours ++ "小时 " ++ toString minutes
    ++ "分钟 " ++ toString seconds ++ "秒"

/-- Branch `name == "get_time_difference"`. -/
def getTimeDifferenceBody (args : JValue) : Except PyError Outcome := do
  let fromTime ← jget args "from" .jnull
  let toTime ← jget args "to" .jnull
  let s1 ← pyStrValue fromTime
  let dt1 ← (match fromisoformat (pyReplaceZ s1) with
    | some dt => Except.ok dt
    | none => Except.error (.valueError ("Invalid isoformat string: " ++ s1)))
  let s2 ← pyStrValue toTime
  let dt2 ← (match fromisoformat (pyReplaceZ s2) with
    | some dt => Except.ok dt
    | none => Except.error (.valueError ("Invalid isoformat string: " ++ s2)))
  let diff ← pySubSeconds dt2 dt1
  let diffSec : Nat := (pyTrunc diff).natAbs
  let payload : JValue := .jobj [
    ("from", fromTime),
    ("to", toTime),
    ("difference_seconds", .jnum (diffSec : ℚ)),
    ("human_readable", .jstr (humanReadableCn (diffSec / 86400) (diffSec % 86400 / 3600)
        (diffSec % 3600 / 60) (diffSec % 60)))]
  .ok (.success (wrapContent payload))

/-- Dispatch of `call_tool` over the four known tool names (exact,
case-sensitive string equality, in source order). -/
def callToolBody (env : Env) (name args : JValue) : Except PyError Outcome :=
  if jeqStr name "get_current_time" then getCurrentTimeBody env args
  else if jeqStr name "get_unix_timestamp" then getUnixTimestampBody env args
  else if jeqStr name "format_timestamp" then formatTimestampBody env args
  else if jeqStr name "get_time_difference" then getTimeDifferenceBody args
  else .ok (.failure (-32601) ("Unknown tool: " ++ pyFormat name))

/-- Source `call_tool`: the whole tool evaluation sits under a catch-all
`except Exception` that converts any raise into a `-32603` error response. -/
def call_tool (env : Env) (name args requestId : JValue) : Response :=
  match callToolBody env name args with
  | .ok outcome => { id := requestId, outcome := outcome }
  | .error e => { id := requestId, outcome := .failure (-32603) e.str }

/-- Result object of the `initialize` method (fixed capability descriptor). -/
def initResult : JValue := .jobj [
  ("protocolVersion", .jstr "2024-11-05"),
  ("capabilities", .jobj [("tools", .jobj [])]),
  ("serverInfo", .jobj [("name", .jstr "time-sync-mcp"), ("version", .jstr "1.0.0")])]

/-- Static tool catalog (`TOOLS`), in source order. -/
def TOOLS : JValue := .jarr [
  .jobj [("name", .jstr "get_current_time"),
    ("description", .jstr "获取当前时间"),
    ("inputSchema", .jobj [("type", .jstr "object"),
      ("properties", .jobj [
        ("timezone", .jobj [("type", .jstr "string"),
          ("description", .jstr "时区 (例如: Asia/Shanghai, UTC)"), ("default", .jstr "UTC")]),
        ("format", .jobj [("type", .jstr "string"),
          ("description", .jstr "时间格式 (默认: YYYY-MM-DD HH:mm:ss)"),
          ("default", .jstr "YYYY-MM-DD HH:mm:ss")])])])],
  .jobj [("name", .jstr "get_unix_timestamp"),
    ("description", .jstr "获取 Unix 时间戳（秒或毫秒）"),
    ("inputSchema", .jobj [("type", .jstr "object"),
      ("properties", .jobj [
        ("milliseconds", .jobj [("type", .jstr "boolean"),
          ("description", .jstr "是否返回毫秒级时间戳"), ("default", .jbool false)])])])],
  .jobj [("name", .jstr "format_timestamp"),
    ("description", .jstr "格式化时间戳为可读时间"),
    ("inputSchema", .jobj [("type", .jstr "object"),
      ("properties", .jobj [
        ("timestamp", .jobj [("type", .jstr "number"), ("description", .jstr "Unix 时间戳")]),
        ("timezone", .jobj [("type", .jstr "string"), ("description", .jstr "时区"),
          ("default", .jstr "UTC")]),
        ("format", .jobj [("type", .jstr "string"), ("description", .jstr "时间格式"),
          ("default", .jstr "YYYY-MM-DD HH:mm:ss")])]),
      ("required", .jarr [.jstr "timestamp"])])],
  .jobj [("name", .jstr "get_time_difference"),
    ("description", .jstr "计算两个时间的差值"),
    ("inputSchema", .jobj [("type", .jstr "object"),
      ("properties", .jobj [
        ("from", .jobj [("type", .jstr "string"), ("description", .jstr "开始时间 (ISO 格式)")]),
        ("to", .jobj [("type", .jstr "string"), ("description", .jstr "结束时间 (ISO 格式)")])]),
      ("required", .jarr [.jstr "from", .jstr "to"])])]]

/-- Source `handle_request`: method routing over a decoded request object.
The extraction of `params.name` / `params.arguments` happens outside any
handler, so it can itself raise (when `params` is not an object). -/
def handle_request (env : Env) (request : List (String × JValue)) : Except PyError Response :=
  let method := alistGet request "method" (.jstr "")
  let params := alistGet request "params" (.jobj [])
  let requestId := alistGet request "id" (.jnum 1)
  if jeqStr method "initialize" then
    .ok { id := requestId, outcome := .success initResult }
  else if jeqStr method "tools/list" then
    .ok { id := requestId, outcome := .success (.jobj [("tools", TOOLS)]) }
  else if jeqStr method "tools/call" then do
    let toolName ← jget params "name" (.jstr "")
    let arguments ← jget params "arguments" (.jobj [])
    .ok (call_tool env toolName arguments requestId)
  else
    .ok { id := requestId, outcome := .failure (-32600) "Invalid request" }

/-- Does a string parse as an ISO datetime carrying an explicit UTC offset? -/
def hasUtcOffset (s : String) : Bool :=
  match fromisoformat s with
  | some dt => dt.offsetSec.isSome
  | none => false

/-- Field ranges under which a datetime is representable and its rendered
ISO form parses back: the invariants Python maintains for every constructed
datetime (years 1..9999, valid month/day/time fields, microseconds below one
second), plus whole-minute, sub-day offsets as in the zone database. -/
def inRangeB (dt : PyDatetime) : Bool :=
  decide (1 ≤ dt.year) && decide (dt.year ≤ 9999) &&
  decide (1 ≤ dt.month) && decide (dt.month ≤ 12) &&
  decide (1 ≤ dt.day) && decide (dt.day ≤ daysInMonth dt.year dt.month) &&
  decide (dt.hour < 24) && decide (dt.minute < 60) && decide (dt.second < 60) &&
  decide (dt.usec < 1000000) &&
  (match dt.offsetSec with
   | none => true
   | some off => decide (off % 60 = 0) && decide (off.natAbs < 86400))

/-- Concrete platform state used by witnesses and counterexamples: the instant
2023-11-14T22:13:20Z, a three-zone database, and a server local zone of
UTC+1. -/
def envW : Env :=
  { nowEpochUsec := 1700000000000000,
    tzdb := fun s =>
      if s = "UTC" then some 0 else if s = "Asia/Shanghai" then some 28800 else none,
    localOffsetSec := 3600 }

/-! ## Bridge lemmas: reducible rational operations against the field ones -/

theorem ratMul_eq (a b : ℚ) : ratMul a b = a * b := by
  rw [ratMul, Rat.divInt_eq_div]
  push_cast
  rw [← div_mul_div_comm, Rat.num_div_den, Rat.num_div_den]

theorem ratDiv_eq (a b : ℚ) : ratDiv a b = a / b := by
  rcases eq_or_ne b 0 with rfl | hb
  · simp [ratDiv]
  · have had : ((a.den : ℕ) : ℚ) ≠ 0 := by exact_mod_cast a.den_ne_zero
    have hbd : ((b.den : ℕ) : ℚ) ≠ 0 := by exact_mod_cast b.den_ne_zero
    have hbn : (b.num : ℚ) ≠ 0 := by exact_mod_cast Rat.num_ne_zero.2 hb
    have ha2 : (a.num : ℚ) = a * (a.den : ℚ) := (div_eq_iff had).1 (Rat.num_div_den a)
    have hb2 : (b.num : ℚ) = b * (b.den : ℚ) := (div_eq_iff hbd).1 (Rat.num_div_den b)
    rw [ratDiv, Rat.divInt_eq_div]
    push_cast
    rw [div_eq_div_iff (mul_ne_zero hbn had) hb, ha2, hb2]
    ring

theorem pyTrunc_eq_floor {q : ℚ} (h : 0 ≤ q) : pyTrunc q = ⌊q⌋ := by
  rw [pyTrunc, Rat.floor_def]
  exact Int.tdiv_eq_ediv (Rat.num_nonneg.2 h) (Int.ofNat_nonneg _)

theorem pyTrunc_neg (q : ℚ) : pyTrunc (-q) = -(pyTrunc q) := by
  rw [pyTrunc, pyTrunc, Rat.neg_num, Rat.neg_den, Int.neg_tdiv]

/-- The magnitude of the Python truncation is the floor of the magnitude. -/
theorem natAbs_pyTrunc (q : ℚ) : ((pyTrunc q).natAbs : ℤ) = ⌊|q|⌋ := by
  rcases le_or_lt 0 q with h | h
  · rw [abs_of_nonneg h, ← pyTrunc_eq_floor h,
      Int.natAbs_of_nonneg (by rw [pyTrunc_eq_floor h]; exact Int.floor_nonneg.2 h)]
  · have h1 : 0 ≤ -q := by linarith
    rw [abs_of_neg h, ← pyTrunc_eq_floor h1]
    have h2 : pyTrunc (-q) = -(pyTrunc q) := pyTrunc_neg q
    have h3 : 0 ≤ pyTrunc (-q) := by
      rw [pyTrunc_eq_floor h1]; exact Int.floor_nonneg.2 h1
    omega

theorem ratRound_eq (q : ℚ) : ratRound q = ⌊q + 1 / 2⌋ := by
  have hd : ((q.den : ℕ) : ℚ) ≠ 0 := by exact_mod_cast q.den_ne_zero
  have hd2 : ((2 * q.den : ℕ) : ℚ) ≠ 0 := by
    exact_mod_cast Nat.mul_ne_zero two_ne_zero q.den_ne_zero
  have hq2 : (q.num : ℚ) = q * (q.den : ℚ) := (div_eq_iff hd).1 (Rat.num_div_den q)
  have hq : q + 1 / 2 = ((2 * q.num + (q.den : ℤ) : ℤ) : ℚ) / ((2 * q.den : ℕ) : ℚ) := by
    rw [eq_div_iff hd2]
    push_cast
    linear_combination (-2 : ℚ) * hq2
  rw [ratRound, hq, Rat.floor_intCast_div_natCast]
  rw [Int.fdiv_eq_ediv _ (by positivity)]
  norm_cast

/-! ## Reduction lemmas for the exception monad -/

@[simp] theorem pybind_ok {α β : Type} (a : α) (f : α → Except PyError β) :
    (Except.ok a >>= f : Except PyError β) = f a := rfl

@[simp] theorem pybind_error {α β : Type} (e : PyError) (f : α → Except PyError β) :
    (Except.error e >>= f : Except PyError β) = Except.error e := rfl

/-! ## Claim C1 -/

/-- C1, as stated, is false on the code: an unsupported timezone is not
swallowed into an ISO fallback.  At the concrete input
`get_current_time {timezone: "Mars/Phobos"}` (a zone absent from the
database), the response carries an error (code -32603 with the exception
text), and no result payload at all. -/
theorem C1_counterexample :
    call_tool envW (.jstr "get_current_time") (.jobj [("timezone", .jstr "Mars/Phobos")]) (.jnum 7)
      = ⟨.jnum 7, .failure (-32603) "Mars/Phobos"⟩
    ∧ (call_tool envW (.jstr "get_current_time")
        (.jobj [("timezone", .jstr "Mars/Phobos")]) (.jnum 7)).toolPayload = none := by
  exact ⟨rfl, rfl⟩

/-- C1 (amended): a call to `get_current_time` or `format_timestamp` whose
timezone argument names a zone absent from the platform database does fail:
the UnknownTimeZoneError is caught only by the dispatcher's catch-all handler,
so the response carries error code -32603 with the exception text, and there
is no fallback of `formatted` to the raw ISO string. -/
theorem C1_invalid_timezone_is_error (env : Env) (A : List (String × JValue)) (rid : JValue)
    (tz : String)
    (hA : alistGet A "timezone" (.jstr "UTC") = .jstr tz) (htz : tz ≠ "UTC")
    (hdb : env.tzdb tz = none) :
    call_tool env (.jstr "get_current_time") (.jobj A) rid
      = ⟨rid, .failure (-32603) (PyError.str (.unknownTimeZoneError tz))⟩
    ∧ ∀ q : ℚ, alistGet A "timestamp" .jnull = .jnum q →
        call_tool env (.jstr "format_timestamp") (.jobj A) rid
          = ⟨rid, .failure (-32603) (PyError.str (.unknownTimeZoneError tz))⟩ := by
  have hne : (tz == "UTC") = false := beq_eq_false_iff_ne.2 htz
  constructor
  · simp [call_tool, callToolBody, getCurrentTimeBody, jget, jeqStr, hA, hne, pytzTimezone,
      hdb, PyError.str]
  · intro q hq
    by_cases hb : (9999999999 : ℚ) < q
    · simp [call_tool, callToolBody, formatTimestampBody, jget, jeqStr, hA, hq, hne,
        pyNumValue, hb, pytzTimezone, hdb, PyError.str]
    · simp [call_tool, callToolBody, formatTimestampBody, jget, jeqStr, hA, hq, hne,
        pyNumValue, hb, pytzTimezone, hdb, PyError.str]

/-- Witness for C1 (amended): the concrete zone name "Mars/Phobos" is absent
from the witness database and both tools report the -32603 error on it. -/
theorem C1_witness :
    alistGet [("timezone", .jstr "Mars/Phobos"), ("timestamp", .jnum 1700000000)]
        "timezone" (.jstr "UTC") = .jstr "Mars/Phobos"
    ∧ envW.tzdb "Mars/Phobos" = none
    ∧ call_tool envW (.jstr "get_current_time")
        (.jobj [("timezone", .jstr "Mars/Phobos"), ("timestamp", .jnum 1700000000)]) (.jnum 2)
        = ⟨.jnum 2, .failure (-32603) (PyError.str (.unknownTimeZoneError "Mars/Phobos"))⟩
    ∧ call_tool envW (.jstr "format_timestamp")
        (.jobj [("timezone", .jstr "Mars/Phobos"), ("timestamp", .jnum 1700000000)]) (.jnum 2)
        = ⟨.jnum 2, .failure (-32603) (PyError.str (.unknownTimeZoneError "Mars/Phobos"))⟩ := by
  refine ⟨rfl, rfl, ?_, ?_⟩
  · exact (C1_invalid_timezone_is_error envW
      [("timezone", .jstr "Mars/Phobos"), ("timestamp", .jnum 1700000000)] (.jnum 2)
      "Mars/Phobos" rfl (by decide) rfl).1
  · exact (C1_invalid_timezone_is_error envW
      [("timezone", .jstr "Mars/Phobos"), ("timestamp", .jnum 1700000000)] (.jnum 2)
      "Mars/Phobos" rfl (by decide) rfl).2 1700000000 rfl

/-! ## Dispatcher-level helper lemmas -/

theorem alistGet_of_find_none {fields : List (String × JValue)} {key : String} {d : JValue}
    (h : alistFind fields key = none) : alistGet fields key d = d := by
  induction fields with
  | nil => rfl
  | cons kv rest ih =>
    rw [alistGet, alistFind] at *
    by_cases hk : kv.1 = key
    · simp [hk] at h
    · simp only [hk, if_false] at h ⊢
      exact ih h

/-! ## Claim C4 -/

/-- C4, as stated, is false on the code: the extraction of `params.name` sits
outside the catch-all handler, so a decoded request object whose `params`
member is not itself an object makes `handle_request` raise (an
AttributeError reaches the transport instead of an error response).  Concrete
input: `{"method": "tools/call", "params": []}`. -/
theorem C4_counterexample :
    handle_request envW [("method", .jstr "tools/call"), ("params", .jarr [])]
      = .error (.attributeError "list object has no attribute get") := rfl

/-- C4 (amended): for every decoded request object whose `params` member, when
present, is itself an object, the dispatcher never raises: every error during
routing, argument extraction, validation or computation is converted into a
response (the tool evaluation sits under the catch-all of `call_tool`). -/
theorem C4_no_raise_for_object_params (env : Env) (req : List (String × JValue))
    (ps : List (String × JValue))
    (hp : alistGet req "params" (.jobj []) = .jobj ps) :
    ∃ resp, handle_request env req = .ok resp := by
  simp only [handle_request, hp]
  by_cases h1 : jeqStr (alistGet req "method" (.jstr "")) "initialize" = true
  · simp [h1]
  · by_cases h2 : jeqStr (alistGet req "method" (.jstr "")) "tools/list" = true
    · simp [h1, h2]
    · by_cases h3 : jeqStr (alistGet req "method" (.jstr "")) "tools/call" = true
      · simp [h1, h2, h3, jget]
      · simp [h1, h2, h3]

/-- Witness for C4 (amended) at a concrete well-formed request. -/
theorem C4_witness :
    alistGet [("method", .jstr "tools/call"),
        ("params", .jobj [("name", .jstr "get_unix_timestamp")]), ("id", .jnum 3)]
      "params" (.jobj []) = .jobj [("name", .jstr "get_unix_timestamp")]
    ∧ ∃ resp, handle_request envW [("method", .jstr "tools/call"),
        ("params", .jobj [("name", .jstr "get_unix_timestamp")]), ("id", .jnum 3)] = .ok resp :=
  ⟨rfl, C4_no_raise_for_object_params envW _ _ rfl⟩

/-! ## Claim C7 -/

/-- C7: every response the dispatcher produces echoes the request id (default 1
when absent) and carries exactly one of the result and error members. -/
theorem C7_response_id_and_exclusivity (env : Env) (req : List (String × JValue))
    (resp : Response) (h : handle_request env req = .ok resp) :
    resp.id = alistGet req "id" (.jnum 1)
      ∧ resp.resultField.isSome ≠ resp.errorCode.isSome := by
  simp only [handle_request] at h
  by_cases h1 : jeqStr (alistGet req "method" (.jstr "")) "initialize" = true
  · simp only [h1, if_true] at h
    cases h
    exact ⟨rfl, by simp [Response.resultField, Response.errorCode]⟩
  · simp only [h1, if_false, Bool.not_eq_true] at h
    rw [if_neg (by simp [h1])] at h
    by_cases h2 : jeqStr (alistGet req "method" (.jstr "")) "tools/list" = true
    · rw [if_pos h2] at h
      cases h
      exact ⟨rfl, by simp [Response.resultField, Response.errorCode]⟩
    · rw [if_neg h2] at h
      by_cases h3 : jeqStr (alistGet req "method" (.jstr "")) "tools/call" = true
      · rw [if_pos h3] at h
        cases hn : jget (alistGet req "params" (.jobj [])) "name" (.jstr "") with
        | error e => rw [hn] at h; simp at h
        | ok nm =>
          rw [hn] at h
          cases ha : jget (alistGet req "params" (.jobj [])) "arguments" (.jobj []) with
          | error e => rw [ha] at h; simp at h
          | ok args =>
            rw [ha] at h
            simp only [pybind_ok] at h
            cases h
            rw [call_tool]
            cases callToolBody env nm args with
            | ok outcome =>
              cases outcome with
              | success r => exact ⟨rfl, by simp [Response.resultField, Response.errorCode]⟩
              | failure c m => exact ⟨rfl, by simp [Response.resultField, Response.errorCode]⟩
            | error e => exact ⟨rfl, by simp [Response.resultField, Response.errorCode]⟩
      · rw [if_neg h3] at h
        cases h
        exact ⟨rfl, by simp [Response.resultField, Response.errorCode]⟩

/-- Witness for C7 at a concrete request carrying an id. -/
theorem C7_witness :
    handle_request envW [("method", .jstr "tools/list"), ("id", .jnum 9)]
        = .ok ⟨.jnum 9, .success (.jobj [("tools", TOOLS)])⟩
    ∧ (Response.mk (.jnum 9) (.success (.jobj [("tools", TOOLS)]))).id
        = alistGet [("method", .jstr "tools/list"), ("id", .jnum 9)] "id" (.jnum 1)
    ∧ (Response.mk (.jnum 9) (.success (.jobj [("tools", TOOLS)]))).resultField.isSome
        ≠ (Response.mk (.jnum 9) (.success (.jobj [("tools", TOOLS)]))).errorCode.isSome := by
  refine ⟨rfl, ?_⟩
  exact C7_response_id_and_exclusivity envW _ _ rfl

/-! ## Unknown-tool and unknown-method routing (shared by claims C8 and C10) -/

theorem unknown_tool_routing (env : Env) (req : List (String × JValue))
    (ps : List (String × JValue)) (s : String)
    (hm : alistGet req "method" (.jstr "") = .jstr "tools/call")
    (hp : alistGet req "params" (.jobj []) = .jobj ps)
    (hn : alistGet ps "name" (.jstr "") = .jstr s)
    (hs : s ∉ ["get_current_time", "get_unix_timestamp", "format_timestamp",
      "get_time_difference"]) :
    handle_request env req
      = .ok ⟨alistGet req "id" (.jnum 1), .failure (-32601) ("Unknown tool: " ++ s)⟩ := by
  have e1 : (s == "get_current_time") = false := by
    refine beq_eq_false_iff_ne.2 ?_; intro h; exact hs (by simp [h])
  have e2 : (s == "get_unix_timestamp") = false := by
    refine beq_eq_false_iff_ne.2 ?_; intro h; exact hs (by simp [h])
  have e3 : (s == "format_timestamp") = false := by
    refine beq_eq_false_iff_ne.2 ?_; intro h; exact hs (by simp [h])
  have e4 : (s == "get_time_difference") = false := by
    refine beq_eq_false_iff_ne.2 ?_; intro h; exact hs (by simp [h])
  simp [handle_request, hm, hp, jeqStr, jget, hn, call_tool, callToolBody,
    e1, e2, e3, e4, pyFormat]

theorem unknown_method_routing (env : Env) (req : List (String × JValue)) (v : JValue)
    (hm : alistGet req "method" (.jstr "") = v)
    (hv1 : jeqStr v "initialize" = false) (hv2 : jeqStr v "tools/list" = false)
    (hv3 : jeqStr v "tools/call" = false) :
    handle_request env req
      = .ok ⟨alistGet req "id" (.jnum 1), .failure (-32600) "Invalid request"⟩ := by
  simp [handle_request, hm, hv1, hv2, hv3]

/-! ## Claim C8 -/

/-- C8: the error-code routing of the dispatcher.  A `tools/call` whose tool
name (by exact, case-sensitive equality) is none of the four known names
yields error -32601 with message "Unknown tool: " followed by the name; a
request whose method equals none of the three known methods yields error
-32600 with message "Invalid request". -/
theorem C8_error_code_routing (env : Env) (req : List (String × JValue)) :
    (∀ (ps : List (String × JValue)) (s : String),
      alistGet req "method" (.jstr "") = .jstr "tools/call" →
      alistGet req "params" (.jobj []) = .jobj ps →
      alistGet ps "name" (.jstr "") = .jstr s →
      s ∉ ["get_current_time", "get_unix_timestamp", "format_timestamp", "get_time_difference"] →
      handle_request env req
        = .ok ⟨alistGet req "id" (.jnum 1), .failure (-32601) ("Unknown tool: " ++ s)⟩)
    ∧ (∀ v : JValue, alistGet req "method" (.jstr "") = v →
      jeqStr v "initialize" = false → jeqStr v "tools/list" = false →
      jeqStr v "tools/call" = false →
      handle_request env req
        = .ok ⟨alistGet req "id" (.jnum 1), .failure (-32600) "Invalid request"⟩) :=
  ⟨fun ps s hm hp hn hs => unknown_tool_routing env req ps s hm hp hn hs,
   fun v hm hv1 hv2 hv3 => unknown_method_routing env req v hm hv1 hv2 hv3⟩

/-- Witness for C8: a concrete unknown tool name and a concrete unknown
method. -/
theorem C8_witness :
    handle_request envW [("method", .jstr "tools/call"),
        ("params", .jobj [("name", .jstr "nonexistent_tool")]), ("id", .jnum 4)]
      = .ok ⟨.jnum 4, .failure (-32601) ("Unknown tool: " ++ "nonexistent_tool")⟩
    ∧ handle_request envW [("method", .jstr "bogus/method"), ("id", .jnum 5)]
      = .ok ⟨.jnum 5, .failure (-32600) "Invalid request"⟩ := by
  constructor
  · exact (C8_error_code_routing envW _).1 [("name", .jstr "nonexistent_tool")]
      "nonexistent_tool" rfl rfl rfl (by decide)
  · exact (C8_error_code_routing envW _).2 (.jstr "bogus/method") rfl (by decide) (by decide)
      (by decide)

/-! ## Claim C10 -/

/-- C10: a `tools/call` whose params omit the `name` member (including a
request with no params at all) defaults the tool name to the empty string and
lands in the unknown-tool branch: error -32601 with message "Unknown tool: "
and nothing raised. -/
theorem C10_missing_name_defaults_empty (env : Env) (req : List (String × JValue))
    (ps : List (String × JValue))
    (hm : alistGet req "method" (.jstr "") = .jstr "tools/call")
    (hp : alistGet req "params" (.jobj []) = .jobj ps)
    (hn : alistFind ps "name" = none) :
    handle_request env req
      = .ok ⟨alistGet req "id" (.jnum 1), .failure (-32601) "Unknown tool: "⟩ := by
  have h0 : alistGet ps "name" (.jstr "") = .jstr "" := alistGet_of_find_none hn
  have := unknown_tool_routing env req ps "" hm hp h0 (by decide)
  simpa using this

/-- Witness for C10: a request omitting `params` entirely. -/
theorem C10_witness :
    handle_request envW [("method", .jstr "tools/call")]
      = .ok ⟨.jnum 1, .failure (-32601) "Unknown tool: "⟩ := by
  exact C10_missing_name_defaults_empty envW [("method", .jstr "tools/call")] [] rfl rfl rfl

/-! ## Claim C5 -/

/-- C5: a `tools/call` of `format_timestamp` whose arguments omit `timestamp`
is a validation error: `args.get("timestamp")` yields None, the comparison
with the 10-digit threshold raises TypeError, and the catch-all converts it to
an error response with code -32603 (no silent default is applied). -/
theorem C5_missing_timestamp_is_error (env : Env) (req : List (String × JValue))
    (ps A : List (String × JValue))
    (hm : alistGet req "method" (.jstr "") = .jstr "tools/call")
    (hp : alistGet req "params" (.jobj []) = .jobj ps)
    (hn : alistGet ps "name" (.jstr "") = .jstr "format_timestamp")
    (ha : alistGet ps "arguments" (.jobj []) = .jobj A)
    (ht : alistFind A "timestamp" = none) :
    handle_request env req = .ok ⟨alistGet req "id" (.jnum 1), .failure (-32603)
      (PyError.str (.typeError
        "comparison not supported between instances of NoneType and int"))⟩ := by
  have h0 : alistGet A "timestamp" .jnull = .jnull := alistGet_of_find_none ht
  simp [handle_request, hm, hp, jeqStr, jget, hn, ha, call_tool, callToolBody,
    formatTimestampBody, h0, pyNumValue, JValue.typeName, PyError.str]

/-- Witness for C5: `format_timestamp` called with empty arguments. -/
theorem C5_witness :
    handle_request envW [("method", .jstr "tools/call"),
        ("params", .jobj [("name", .jstr "format_timestamp"), ("arguments", .jobj [])]),
        ("id", .jnum 6)]
      = .ok ⟨.jnum 6, .failure (-32603)
          (PyError.str (.typeError
            "comparison not supported between instances of NoneType and int"))⟩ := by
  exact C5_missing_timestamp_is_error envW _ [("name", .jstr "format_timestamp"),
    ("arguments", .jobj [])] [] rfl rfl rfl rfl rfl

/-! ## Payload extraction lemmas -/

theorem payloadStr_success (rid : JValue) (fields : List (String × JValue)) (key s : String)
    (h : alistFind fields key = some (.jstr s)) :
    (Response.mk rid (.success (wrapContent (.jobj fields)))).payloadStr key = some s := by
  simp [Response.payloadStr, Response.toolPayload, Response.resultField, wrapContent,
    jlookup, alistFind, h]

theorem payloadNum_success (rid : JValue) (fields : List (String × JValue)) (key : String)
    (q : ℚ) (h : alistFind fields key = some (.jnum q)) :
    (Response.mk rid (.success (wrapContent (.jobj fields)))).payloadNum key = some q := by
  simp [Response.payloadNum, Response.toolPayload, Response.resultField, wrapContent,
    jlookup, alistFind, h]

/-! ## Claim C3 -/

/-- C3: the 10-digit disambiguation of `format_timestamp`.  A timestamp at or
below 9999999999 is interpreted as seconds; multiplying it by 1000 crosses the
threshold, is interpreted as milliseconds, and resolves to the same datetime,
so both calls render identical `formatted` and `iso` fields. -/
theorem C3_threshold_units_agree (env : Env) (rid : JValue) (tz : String) (off : Int)
    (A1 A2 : List (String × JValue)) (ts : ℚ)
    (h1 : alistGet A1 "timestamp" .jnull = .jnum ts)
    (h2 : alistGet A2 "timestamp" .jnull = .jnum (ts * 1000))
    (htz1 : alistGet A1 "timezone" (.jstr "UTC") = .jstr tz)
    (htz2 : alistGet A2 "timezone" (.jstr "UTC") = .jstr tz)
    (hdb : env.tzdb tz = some off)
    (hoff : off.natAbs ≤ 86400)
    (hle : ts ≤ 9999999999)
    (hgt : 9999999999 < ts * 1000) :
    ∃ dt : PyDatetime, pyFromtimestamp ts off = .ok dt
      ∧ (call_tool env (.jstr "format_timestamp") (.jobj A1) rid).payloadStr "formatted"
          = some dt.strftimeYmdHms
      ∧ (call_tool env (.jstr "format_timestamp") (.jobj A1) rid).payloadStr "iso"
          = some dt.isoformat
      ∧ (call_tool env (.jstr "format_timestamp") (.jobj A2) rid).payloadStr "formatted"
          = some dt.strftimeYmdHms
      ∧ (call_tool env (.jstr "format_timestamp") (.jobj A2) rid).payloadStr "iso"
          = some dt.isoformat := by
  have hofflo : (-86400 : ℤ) ≤ off := by omega
  have hoffhi : off ≤ 86400 := by omega
  have hoffloQ : (-86400 : ℚ) ≤ (off : ℚ) := by exact_mod_cast hofflo
  have hoffhiQ : ((off : ℚ)) ≤ 86400 := by exact_mod_cast hoffhi
  have htslo : (9999999 : ℚ) < ts := by nlinarith
  have hr : ratRound (ratMul ts 1000000) = ⌊ts * 1000000 + 1 / 2⌋ := by
    rw [ratMul_eq, ratRound_eq]
  have hlow : minWallUsec ≤ ratRound (ratMul ts 1000000) + off * 1000000 := by
    rw [hr, minWallUsec]
    have h3 : ((-719162 : ℤ) * 86400000000 - off * 1000000 : ℤ) ≤ ⌊ts * 1000000 + 1 / 2⌋ := by
      rw [Int.le_floor]
      push_cast
      linarith
    linarith
  have hhi : ratRound (ratMul ts 1000000) + off * 1000000 < maxWallUsec := by
    rw [hr, maxWallUsec]
    have h3 : ⌊ts * 1000000 + 1 / 2⌋ < (2932897 : ℤ) * 86400000000 - off * 1000000 := by
      rw [Int.floor_lt]
      push_cast
      linarith
    linarith
  have hfts : pyFromtimestamp ts off
      = .ok (dtOfWallUsec (ratRound (ratMul ts 1000000) + off * 1000000) (some off)) := by
    rw [pyFromtimestamp, if_pos ⟨hlow, hhi⟩]
  have hdiv : ratDiv (ts * 1000) 1000 = ts := by
    rw [ratDiv_eq]
    exact mul_div_cancel_right₀ ts (by norm_num)
  have hle' : ¬ ((9999999999 : ℚ) < ts) := not_lt.2 hle
  refine ⟨dtOfWallUsec (ratRound (ratMul ts 1000000) + off * 1000000) (some off), hfts,
    ?_, ?_, ?_, ?_⟩ <;>
  · first
    | (have hcall : call_tool env (.jstr "format_timestamp") (.jobj A1) rid
          = ⟨rid, .success (wrapContent (.jobj [("original_timestamp", .jnum ts),
              ("formatted", .jstr (dtOfWallUsec (ratRound (ratMul ts 1000000)
                  + off * 1000000) (some off)).strftimeYmdHms),
              ("timezone", .jstr tz),
              ("iso", .jstr (dtOfWallUsec (ratRound (ratMul ts 1000000)
                  + off * 1000000) (some off)).isoformat)]))⟩ := by
        simp [call_tool, callToolBody, formatTimestampBody, jeqStr, jget, h1, htz1,
          pyNumValue, hle', pytzTimezone, hdb, hfts]
       rw [hcall]
       exact payloadStr_success _ _ _ _ rfl)
    | (have hcall : call_tool env (.jstr "format_timestamp") (.jobj A2) rid
          = ⟨rid, .success (wrapContent (.jobj [("original_timestamp", .jnum (ts * 1000)),
              ("formatted", .jstr (dtOfWallUsec (ratRound (ratMul ts 1000000)
                  + off * 1000000) (some off)).strftimeYmdHms),
              ("timezone", .jstr tz),
              ("iso", .jstr (dtOfWallUsec (ratRound (ratMul ts 1000000)
                  + off * 1000000) (some off)).isoformat)]))⟩ := by
        simp [call_tool, callToolBody, formatTimestampBody, jeqStr, jget, h2, htz2,
          pyNumValue, hgt, pytzTimezone, hdb, hdiv, hfts]
       rw [hcall]
       exact payloadStr_success _ _ _ _ rfl)

/-- Witness for C3 at the spec's own example pair 1700000000 and
1700000000000 in zone Asia/Shanghai. -/
theorem C3_witness :
    envW.tzdb "Asia/Shanghai" = some 28800
    ∧ (1700000000 : ℚ) ≤ 9999999999
    ∧ (9999999999 : ℚ) < 1700000000 * 1000
    ∧ ∃ dt : PyDatetime, pyFromtimestamp 1700000000 28800 = .ok dt
      ∧ (call_tool envW (.jstr "format_timestamp")
          (.jobj [("timestamp", .jnum 1700000000), ("timezone", .jstr "Asia/Shanghai")])
          (.jnum 1)).payloadStr "formatted" = some dt.strftimeYmdHms
      ∧ (call_tool envW (.jstr "format_timestamp")
          (.jobj [("timestamp", .jnum 1700000000), ("timezone", .jstr "Asia/Shanghai")])
          (.jnum 1)).payloadStr "iso" = some dt.isoformat
      ∧ (call_tool envW (.jstr "format_timestamp")
          (.jobj [("timestamp", .jnum (1700000000 * 1000)), ("timezone", .jstr "Asia/Shanghai")])
          (.jnum 1)).payloadStr "formatted" = some dt.strftimeYmdHms
      ∧ (call_tool envW (.jstr "format_timestamp")
          (.jobj [("timestamp", .jnum (1700000000 * 1000)), ("timezone", .jstr "Asia/Shanghai")])
          (.jnum 1)).payloadStr "iso" = some dt.isoformat := by
  refine ⟨rfl, by norm_num, by norm_num, ?_⟩
  exact C3_threshold_units_agree envW (.jnum 1) "Asia/Shanghai" 28800
    [("timestamp", .jnum 1700000000), ("timezone", .jstr "Asia/Shanghai")]
    [("timestamp", .jnum (1700000000 * 1000)), ("timezone", .jstr "Asia/Shanghai")]
    1700000000 rfl rfl rfl rfl rfl (by norm_num) (by norm_num) (by norm_num)

/-! ## Claim C9 -/

/-- C9: `get_unix_timestamp` returns the floor of the epoch seconds when
`milliseconds` is false, and the exact epoch milliseconds (a value 1000 times
larger within rounding) when true, both derived from the same instant. -/
theorem C9_seconds_vs_milliseconds (env : Env) (rid : JValue)
    (Af At : List (String × JValue))
    (hf : alistGet Af "milliseconds" (.jbool false) = .jbool false)
    (ht : alistGet At "milliseconds" (.jbool false) = .jbool true)
    (hcal : (pyNowNaive env).epochUsec env = env.nowEpochUsec)
    (hpos : 0 ≤ env.nowEpochUsec) :
    (call_tool env (.jstr "get_unix_timestamp") (.jobj Af) rid).payloadNum "timestamp"
        = some ((⌊(env.nowEpochUsec : ℚ) / 1000000⌋ : ℤ) : ℚ)
    ∧ (call_tool env (.jstr "get_unix_timestamp") (.jobj At) rid).payloadNum "timestamp"
        = some ((env.nowEpochUsec : ℚ) / 1000)
    ∧ |(env.nowEpochUsec : ℚ) / 1000
        - 1000 * ((⌊(env.nowEpochUsec : ℚ) / 1000000⌋ : ℤ) : ℚ)| < 1000 := by
  have hq : (pyNowNaive env).timestampQ env = (env.nowEpochUsec : ℚ) / 1000000 := by
    rw [PyDatetime.timestampQ, hcal, ratDiv_eq]
  have hqpos : (0 : ℚ) ≤ (env.nowEpochUsec : ℚ) / 1000000 := by
    apply div_nonneg _ (by norm_num)
    exact_mod_cast hpos
  have hsec : pyTrunc ((pyNowNaive env).timestampQ env)
      = ⌊(env.nowEpochUsec : ℚ) / 1000000⌋ := by
    rw [hq, pyTrunc_eq_floor hqpos]
  have hms : ratMul ((pyNowNaive env).timestampQ env) 1000 = (env.nowEpochUsec : ℚ) / 1000 := by
    rw [hq, ratMul_eq]
    ring
  refine ⟨?_, ?_, ?_⟩
  · have hcall : call_tool env (.jstr "get_unix_timestamp") (.jobj Af) rid
        = ⟨rid, .success (wrapContent (.jobj [("timestamp",
            .jnum ((pyTrunc ((pyNowNaive env).timestampQ env) : ℤ) : ℚ))]))⟩ := by
      simp [call_tool, callToolBody, getUnixTimestampBody, jeqStr, jget, hf, jTruthy]
    rw [hcall, hsec]
    exact payloadNum_success _ _ _ _ rfl
  · have hcall : call_tool env (.jstr "get_unix_timestamp") (.jobj At) rid
        = ⟨rid, .success (wrapContent (.jobj [("timestamp",
            .jnum (ratMul ((pyNowNaive env).timestampQ env) 1000))]))⟩ := by
      simp [call_tool, callToolBody, getUnixTimestampBody, jeqStr, jget, ht, jTruthy]
    rw [hcall, hms]
    exact payloadNum_success _ _ _ _ rfl
  · set q : ℚ := (env.nowEpochUsec : ℚ) / 1000000 with hqdef
    have h1 : (env.nowEpochUsec : ℚ) / 1000 = 1000 * q := by
      rw [hqdef]; ring
    rw [h1]
    have h2 : 1000 * q - 1000 * ((⌊q⌋ : ℤ) : ℚ) = 1000 * Int.fract q := by
      rw [Int.fract]; ring
    rw [h2, abs_of_nonneg (mul_nonneg (by norm_num) (Int.fract_nonneg q))]
    have := Int.fract_lt_one q
    linarith

/-- Witness for C9 at the witness platform state (milliseconds false via the
default-shaped argument, true explicitly). -/
theorem C9_witness :
    alistGet [] "milliseconds" (.jbool false) = .jbool false
    ∧ (pyNowNaive envW).epochUsec envW = envW.nowEpochUsec
    ∧ (call_tool envW (.jstr "get_unix_timestamp") (.jobj []) (.jnum 8)).payloadNum "timestamp"
        = some ((⌊(envW.nowEpochUsec : ℚ) / 1000000⌋ : ℤ) : ℚ)
    ∧ (call_tool envW (.jstr "get_unix_timestamp")
        (.jobj [("milliseconds", .jbool true)]) (.jnum 8)).payloadNum "timestamp"
        = some ((envW.nowEpochUsec : ℚ) / 1000)
    ∧ |(envW.nowEpochUsec : ℚ) / 1000
        - 1000 * ((⌊(envW.nowEpochUsec : ℚ) / 1000000⌋ : ℤ) : ℚ)| < 1000 := by
  have h := C9_seconds_vs_milliseconds envW (.jnum 8) [] [("milliseconds", .jbool true)]
    rfl rfl (by decide) (by decide)
  exact ⟨rfl, by decide, h.1, h.2.1, h.2.2⟩

/-! ## Claim C6 -/

/-- C6, as stated, is false on the code: both of these strings are well-formed
ISO-8601 (one aware via the trailing Z, one naive), yet the call returns an
error response (-32603, from the TypeError of subtracting naive and aware
datetimes) instead of a difference of zero seconds. -/
theorem C6_counterexample :
    call_tool envW (.jstr "get_time_difference")
      (.jobj [("from", .jstr "2024-01-01T00:00:00Z"), ("to", .jstr "2024-01-01T00:00:00")])
      (.jnum 1)
    = ⟨.jnum 1, .failure (-32603)
        "cannot subtract offset-naive and offset-aware datetimes"⟩ := rfl

/-- C6 (amended): for every pair of well-formed ISO-8601 strings that are
either both offset-bearing (a trailing Z accepted as UTC) or both naive,
`get_time_difference` returns `difference_seconds` equal to the floor of the
magnitude of `(to - from)` in whole seconds (symmetric in its arguments), and
`human_readable` equal to the days/hours/minutes/seconds decomposition in the
fixed Chinese template. -/
theorem C6_difference_and_rendering (env : Env) (rid : JValue)
    (A : List (String × JValue)) (s1 s2 : String) (dt1 dt2 : PyDatetime) (q : ℚ)
    (hfrom : alistGet A "from" .jnull = .jstr s1)
    (hto : alistGet A "to" .jnull = .jstr s2)
    (hp1 : fromisoformat (pyReplaceZ s1) = some dt1)
    (hp2 : fromisoformat (pyReplaceZ s2) = some dt2)
    (hq : pySubSeconds dt2 dt1 = .ok q) :
    (call_tool env (.jstr "get_time_difference") (.jobj A) rid).payloadNum
        "difference_seconds" = some (((pyTrunc q).natAbs : Nat) : ℚ)
    ∧ (call_tool env (.jstr "get_time_difference") (.jobj A) rid).payloadStr
        "human_readable"
        = some (humanReadableCn ((pyTrunc q).natAbs / 86400)
            ((pyTrunc q).natAbs % 86400 / 3600)
            ((pyTrunc q).natAbs % 3600 / 60) ((pyTrunc q).natAbs % 60))
    ∧ (((pyTrunc q).natAbs : ℤ) = ⌊|q|⌋)
    ∧ (∀ q' : ℚ, pySubSeconds dt1 dt2 = .ok q' → (pyTrunc q').natAbs = (pyTrunc q).natAbs) := by
  have hcall : call_tool env (.jstr "get_time_difference") (.jobj A) rid
      = ⟨rid, .success (wrapContent (.jobj [
          ("from", .jstr s1), ("to", .jstr s2),
          ("difference_seconds", .jnum (((pyTrunc q).natAbs : Nat) : ℚ)),
          ("human_readable", .jstr (humanReadableCn ((pyTrunc q).natAbs / 86400)
            ((pyTrunc q).natAbs % 86400 / 3600)
            ((pyTrunc q).natAbs % 3600 / 60) ((pyTrunc q).natAbs % 60)))]))⟩ := by
    simp [call_tool, callToolBody, getTimeDifferenceBody, jeqStr, jget, hfrom, hto,
      pyStrValue, hp1, hp2, hq]
  refine ⟨?_, ?_, natAbs_pyTrunc q, ?_⟩
  · rw [hcall]
    exact payloadNum_success _ _ _ _ rfl
  · rw [hcall]
    exact payloadStr_success _ _ _ _ rfl
  · intro q' hq'
    have hval : q' = -q := by
      cases ho2 : dt2.offsetSec with
      | some o2 =>
        cases ho1 : dt1.offsetSec with
        | some o1 =>
          rw [pySubSeconds, ho1, ho2] at hq hq'
          simp only [Except.ok.injEq] at hq hq'
          rw [← hq, ← hq', ratDiv_eq, ratDiv_eq]
          push_cast
          ring
        | none => rw [pySubSeconds, ho1, ho2] at hq; simp at hq
      | none =>
        cases ho1 : dt1.offsetSec with
        | some o1 => rw [pySubSeconds, ho1, ho2] at hq; simp at hq
        | none =>
          rw [pySubSeconds, ho1, ho2] at hq hq'
          simp only [Except.ok.injEq] at hq hq'
          rw [← hq, ← hq', ratDiv_eq, ratDiv_eq]
          push_cast
          ring
    rw [hval, pyTrunc_neg, Int.natAbs_neg]

/-- Witness for C6 at the spec example: from 2024-01-01T00:00:00Z to
2024-01-02T01:02:03Z, yielding 90123 seconds and the template rendering. -/
theorem C6_witness :
    (∃ dt1 dt2 : PyDatetime,
      fromisoformat (pyReplaceZ "2024-01-01T00:00:00Z") = some dt1
      ∧ fromisoformat (pyReplaceZ "2024-01-02T01:02:03Z") = some dt2
      ∧ ∃ q : ℚ, pySubSeconds dt2 dt1 = .ok q
        ∧ (call_tool envW (.jstr "get_time_difference")
            (.jobj [("from", .jstr "2024-01-01T00:00:00Z"),
                    ("to", .jstr "2024-01-02T01:02:03Z")]) (.jnum 1)).payloadNum
            "difference_seconds" = some (((pyTrunc q).natAbs : Nat) : ℚ))
    ∧ (call_tool envW (.jstr "get_time_difference")
        (.jobj [("from", .jstr "2024-01-01T00:00:00Z"),
                ("to", .jstr "2024-01-02T01:02:03Z")]) (.jnum 1)).payloadNum
        "difference_seconds" = some 90123
    ∧ (call_tool envW (.jstr "get_time_difference")
        (.jobj [("from", .jstr "2024-01-01T00:00:00Z"),
                ("to", .jstr "2024-01-02T01:02:03Z")]) (.jnum 1)).payloadStr
        "human_readable" = some "1天 1小时 2分钟 3秒" := by
  refine ⟨?_, by decide, by decide⟩
  refine ⟨⟨2024, 1, 1, 0, 0, 0, 0, some 0⟩, ⟨2024, 1, 2, 1, 2, 3, 0, some 0⟩, rfl, rfl,
    Rat.divInt 90123000000 1000000, rfl, ?_⟩
  exact (C6_difference_and_rendering envW (.jnum 1)
    [("from", .jstr "2024-01-01T00:00:00Z"), ("to", .jstr "2024-01-02T01:02:03Z")]
    "2024-01-01T00:00:00Z" "2024-01-02T01:02:03Z"
    ⟨2024, 1, 1, 0, 0, 0, 0, some 0⟩ ⟨2024, 1, 2, 1, 2, 3, 0, some 0⟩
    (Rat.divInt 90123000000 1000000) rfl rfl rfl rfl rfl).1

/-! ## Digit-level round-trip lemmas -/

theorem isDigit_digitChar {d : Nat} (h : d < 10) : isDigit (digitChar d) = true := by
  interval_cases d <;> rfl

theorem digitVal_digitChar {d : Nat} (h : d < 10) : digitVal (digitChar d) = d := by
  interval_cases d <;> rfl

theorem mod10_lt (n : Nat) : n % 10 < 10 := Nat.mod_lt _ (by norm_num)

theorem parse2_digits {n : Nat} (h : n < 100) :
    parse2 (digitChar (n / 10 % 10)) (digitChar (n % 10)) = some n := by
  rw [parse2, isDigit_digitChar (mod10_lt _), isDigit_digitChar (mod10_lt _)]
  rw [digitVal_digitChar (mod10_lt _), digitVal_digitChar (mod10_lt _)]
  simp only [Bool.and_self, if_true]
  congr 1
  omega

theorem parse4_digits {n : Nat} (h : n < 10000) :
    parse4 (digitChar (n / 1000 % 10)) (digitChar (n / 100 % 10))
      (digitChar (n / 10 % 10)) (digitChar (n % 10)) = some n := by
  rw [parse4, isDigit_digitChar (mod10_lt _), isDigit_digitChar (mod10_lt _),
    isDigit_digitChar (mod10_lt _), isDigit_digitChar (mod10_lt _)]
  rw [digitVal_digitChar (mod10_lt _), digitVal_digitChar (mod10_lt _),
    digitVal_digitChar (mod10_lt _), digitVal_digitChar (mod10_lt _)]
  simp only [Bool.and_self, if_true]
  congr 1
  omega

theorem digitsToNat_digits6 {u : Nat} (h : u < 1000000) :
    digitsToNat (digits6 u) = u := by
  rw [digits6, digitsToNat]
  simp only [List.foldl]
  rw [digitVal_digitChar (mod10_lt _), digitVal_digitChar (mod10_lt _),
    digitVal_digitChar (mod10_lt _), digitVal_digitChar (mod10_lt _),
    digitVal_digitChar (mod10_lt _), digitVal_digitChar (mod10_lt _)]
  omega

theorem takeWhile_offsetChars (off : Option Int) :
    (offsetChars off).takeWhile isDigit = [] := by
  cases off with
  | none => rfl
  | some o =>
    rw [offsetChars]
    by_cases h : o < 0 <;>
      simp [h, List.takeWhile_cons, (show isDigit '-' = false from rfl),
        (show isDigit '+' = false from rfl)]

theorem dropWhile_offsetChars (off : Option Int) :
    (offsetChars off).dropWhile isDigit = offsetChars off := by
  cases off with
  | none => rfl
  | some o =>
    rw [offsetChars]
    by_cases h : o < 0 <;>
      simp [h, List.dropWhile_cons, (show isDigit '-' = false from rfl),
        (show isDigit '+' = false from rfl)]

theorem takeWhile_digits6_append (u : Nat) (off : Option Int) :
    (digits6 u ++ offsetChars off).takeWhile isDigit = digits6 u := by
  rw [digits6]
  simp only [List.cons_append, List.nil_append, List.takeWhile_cons,
    isDigit_digitChar (mod10_lt _), if_true, takeWhile_offsetChars]

theorem dropWhile_digits6_append (u : Nat) (off : Option Int) :
    (digits6 u ++ offsetChars off).dropWhile isDigit = offsetChars off := by
  rw [digits6]
  simp only [List.cons_append, List.nil_append, List.dropWhile_cons,
    isDigit_digitChar (mod10_lt _), if_true]
  simp [dropWhile_offsetChars]

theorem parseOffsetPart_offsetChars {o : Int} (h60 : o % 60 = 0) (habs : o.natAbs < 86400) :
    parseOffsetPart (offsetChars (some o)) = some (some o) := by
  have hh : o.natAbs / 3600 < 24 := by omega
  have hm : o.natAbs % 3600 / 60 < 60 := by omega
  have habs60 : o.natAbs % 60 = 0 := by omega
  have hval : o.natAbs / 3600 * 3600 + o.natAbs % 3600 / 60 * 60 = o.natAbs := by omega
  rw [offsetChars]
  by_cases hneg : o < 0
  · simp only [hneg, if_true, digits2, List.cons_append, List.nil_append]
    rw [parseOffsetPart, parse2_digits (by omega : o.natAbs / 3600 < 100),
      parse2_digits (by omega : o.natAbs % 3600 / 60 < 100)]
    simp only [Option.bind_eq_bind, Option.some_bind]
    rw [if_pos (by simp [hh, hm])]
    congr 2
    omega
  · simp only [hneg, if_false, digits2, List.cons_append, List.nil_append]
    rw [parseOffsetPart, parse2_digits (by omega : o.natAbs / 3600 < 100),
      parse2_digits (by omega : o.natAbs % 3600 / 60 < 100)]
    simp only [Option.bind_eq_bind, Option.some_bind]
    rw [if_pos (by simp [hh, hm])]
    congr 2
    omega

/-! ## Reduction lemmas for the ISO parser on rendered shapes -/

theorem parseFracAndOffset_plus (rest : List Char) :
    parseFracAndOffset ('+' :: rest)
      = (parseOffsetPart ('+' :: rest)).bind (fun o => some (0, o)) := rfl

theorem parseFracAndOffset_minus (rest : List Char) :
    parseFracAndOffset ('-' :: rest)
      = (parseOffsetPart ('-' :: rest)).bind (fun o => some (0, o)) := rfl

theorem parseFracAndOffset_dot (rest : List Char) :
    parseFracAndOffset ('.' :: rest)
      = (if (rest.takeWhile isDigit).length = 6 then
          (parseOffsetPart (rest.dropWhile isDigit)).bind
            (fun o => some (digitsToNat (rest.takeWhile isDigit), o))
        else if (rest.takeWhile isDigit).length = 3 then
          (parseOffsetPart (rest.dropWhile isDigit)).bind
            (fun o => some (digitsToNat (rest.takeWhile isDigit) * 1000, o))
        else none) := rfl

theorem parseOffsetPart_offsetChars_all (off : Option Int)
    (h : ∀ o, off = some o → o % 60 = 0 ∧ o.natAbs < 86400) :
    parseOffsetPart (offsetChars off) = some off := by
  cases off with
  | none => rfl
  | some o => exact parseOffsetPart_offsetChars (h o rfl).1 (h o rfl).2

theorem parseFracAndOffset_rendered (u : Nat) (hu : u < 1000000) (off : Option Int)
    (h : ∀ o, off = some o → o % 60 = 0 ∧ o.natAbs < 86400) :
    parseFracAndOffset ((if u = 0 then [] else '.' :: digits6 u) ++ offsetChars off)
      = some (u, off) := by
  by_cases h0 : u = 0
  · subst h0
    rw [if_pos rfl, List.nil_append]
    cases hoc : off with
    | none => rfl
    | some o =>
      have h60 := (h o hoc).1
      have habs := (h o hoc).2
      by_cases hneg : o < 0
      · have he : offsetChars (some o)
            = '-' :: (digits2 (o.natAbs / 3600) ++ ':' :: digits2 (o.natAbs % 3600 / 60)) := by
          rw [offsetChars, if_pos hneg]
        rw [he, parseFracAndOffset_minus, ← he, parseOffsetPart_offsetChars h60 habs]
        rfl
      · have he : offsetChars (some o)
            = '+' :: (digits2 (o.natAbs / 3600) ++ ':' :: digits2 (o.natAbs % 3600 / 60)) := by
          rw [offsetChars, if_neg hneg]
        rw [he, parseFracAndOffset_plus, ← he, parseOffsetPart_offsetChars h60 habs]
        rfl
  · rw [if_neg h0, List.cons_append, parseFracAndOffset_dot,
      takeWhile_digits6_append, dropWhile_digits6_append]
    rw [(show (digits6 u).length = 6 from rfl)]
    rw [if_pos rfl, parseOffsetPart_offsetChars_all off h, digitsToNat_digits6 hu]
    rfl

theorem fromisoformat_cons
    (y1 y2 y3 y4 m1 m2 d1 d2 sep h1 h2 n1 n2 s1 s2 : Char) (rest : List Char) :
    fromisoformat (String.mk (y1 :: y2 :: y3 :: y4 :: '-' :: m1 :: m2 :: '-' :: d1 :: d2 :: sep
        :: h1 :: h2 :: ':' :: n1 :: n2 :: ':' :: s1 :: s2 :: rest))
      = (parse4 y1 y2 y3 y4).bind (fun y =>
        (parse2 m1 m2).bind (fun mo =>
        (parse2 d1 d2).bind (fun d =>
        (parse2 h1 h2).bind (fun h =>
        (parse2 n1 n2).bind (fun mi =>
        (parse2 s1 s2).bind (fun sec =>
        (parseFracAndOffset rest).bind (fun fo =>
          if 1 ≤ y ∧ 1 ≤ mo ∧ mo ≤ 12 ∧ 1 ≤ d ∧ d ≤ daysInMonth y mo
              ∧ h < 24 ∧ mi < 60 ∧ sec < 60
          then some { year := y, month := mo, day := d, hour := h, minute := mi, second := sec,
                      usec := fo.1, offsetSec := fo.2 }
          else none))))))) := rfl

theorem daysInMonth_le (y m : Nat) : daysInMonth y m ≤ 31 := by
  rw [daysInMonth]
  split
  · split <;> norm_num
  · split <;> norm_num

/-- Rendering then reparsing an in-range datetime is the identity: the ISO
string of a datetime the platform can construct denotes exactly that
datetime. -/
theorem fromisoformat_isoformat {dt : PyDatetime} (hr : inRangeB dt = true) :
    fromisoformat dt.isoformat = some dt := by
  obtain ⟨y, mo, d, hh, mi, ss, u, off⟩ := dt
  rw [inRangeB] at hr
  simp only [Bool.and_eq_true, decide_eq_true_eq] at hr
  obtain ⟨⟨⟨⟨⟨⟨⟨⟨⟨⟨hy1, hy2⟩, hm1⟩, hm2⟩, hd1⟩, hd2⟩, hhh⟩, hmi⟩, hss⟩, hu⟩, hoffb⟩ := hr
  have hoff : ∀ o : Int, off = some o → o % 60 = 0 ∧ o.natAbs < 86400 := by
    intro o ho
    subst ho
    simpa [Bool.and_eq_true, decide_eq_true_eq] using hoffb
  have hy4 : y < 10000 := by omega
  have hmo : mo < 100 := by omega
  have hdlt : d < 100 := by
    have := daysInMonth_le y mo
    omega
  simp only [PyDatetime.isoformat, digits4, digits2, List.cons_append, List.nil_append,
    List.append_assoc]
  rw [fromisoformat_cons, parse4_digits hy4, parse2_digits hmo, parse2_digits hdlt,
    parse2_digits (by omega : hh < 100), parse2_digits (by omega : mi < 100),
    parse2_digits (by omega : ss < 100)]
  simp only [Option.some_bind]
  rw [parseFracAndOffset_rendered u hu off hoff]
  simp only [Option.some_bind]
  rw [if_pos ⟨hy1, hm1, hm2, hd1, hd2, hhh, hmi, hss⟩]

/-! ## Claim C2 -/

/-- C2, as stated, is false on the code for the default timezone "UTC": that
branch takes a naive `datetime.now()`, so at the witness platform state (a
server in UTC+1) the `iso` field carries no UTC offset at all and the
`formatted` field shows the server-local wall clock 23:13:20, not the
requested-timezone (UTC) rendering 22:13:20 of the same instant. -/
theorem C2_counterexample :
    (call_tool envW (.jstr "get_current_time") (.jobj []) (.jnum 1)).payloadStr "iso"
        = some "2023-11-14T23:13:20"
    ∧ hasUtcOffset "2023-11-14T23:13:20" = false
    ∧ (call_tool envW (.jstr "get_current_time") (.jobj []) (.jnum 1)).payloadStr "formatted"
        = some "2023-11-14 23:13:20"
    ∧ (pyNowTz envW 0).strftimeYmdHms = "2023-11-14 22:13:20"
    ∧ "2023-11-14 23:13:20" ≠ "2023-11-14 22:13:20" :=
  ⟨by decide, by decide, by decide, by decide, by decide⟩

/-- C2 (amended): for every valid timezone argument other than the
special-cased "UTC" (whose branch returns naive server-local time), the
`get_current_time` payload satisfies the claim: `iso` is the current instant
rendered with its UTC offset (it reparses to an offset-bearing datetime),
`formatted` is the same instant rendered "YYYY-MM-DD HH:MM:SS" in the
requested timezone, `timestamp` is the floor of the current epoch seconds,
and reparsing `iso` yields a datetime whose floored epoch seconds equal that
`timestamp`.  The side conditions state that the platform calendar round-trips
at the current instant and that the instant is representable — facts the real
platform guarantees for every present-day clock reading. -/
theorem C2_current_time_fields (env : Env) (rid : JValue) (A : List (String × JValue))
    (tz : String) (off : Int)
    (hA : alistGet A "timezone" (.jstr "UTC") = .jstr tz)
    (htz : tz ≠ "UTC")
    (hdb : env.tzdb tz = some off)
    (hcal : (pyNowTz env off).epochUsec env = env.nowEpochUsec)
    (hpos : 0 ≤ env.nowEpochUsec)
    (hrange : inRangeB (pyNowTz env off) = true) :
    (call_tool env (.jstr "get_current_time") (.jobj A) rid).payloadStr "iso"
        = some (pyNowTz env off).isoformat
    ∧ hasUtcOffset ((pyNowTz env off).isoformat) = true
    ∧ (call_tool env (.jstr "get_current_time") (.jobj A) rid).payloadStr "formatted"
        = some (pyNowTz env off).strftimeYmdHms
    ∧ (call_tool env (.jstr "get_current_time") (.jobj A) rid).payloadNum "timestamp"
        = some ((⌊(env.nowEpochUsec : ℚ) / 1000000⌋ : ℤ) : ℚ)
    ∧ fromisoformat ((pyNowTz env off).isoformat) = some (pyNowTz env off)
    ∧ ∀ dt' : PyDatetime, fromisoformat ((pyNowTz env off).isoformat) = some dt' →
        ⌊dt'.timestampQ env⌋ = ⌊(env.nowEpochUsec : ℚ) / 1000000⌋ := by
  have hne : (tz == "UTC") = false := beq_eq_false_iff_ne.2 htz
  have hpar : fromisoformat ((pyNowTz env off).isoformat) = some (pyNowTz env off) :=
    fromisoformat_isoformat hrange
  have hts : (pyNowTz env off).timestampQ env = (env.nowEpochUsec : ℚ) / 1000000 := by
    rw [PyDatetime.timestampQ, hcal, ratDiv_eq]
  have hqpos : (0 : ℚ) ≤ (env.nowEpochUsec : ℚ) / 1000000 :=
    div_nonneg (by exact_mod_cast hpos) (by norm_num)
  have htr : pyTrunc ((pyNowTz env off).timestampQ env)
      = ⌊(env.nowEpochUsec : ℚ) / 1000000⌋ := by
    rw [hts, pyTrunc_eq_floor hqpos]
  have hcall : call_tool env (.jstr "get_current_time") (.jobj A) rid
      = ⟨rid, .success (wrapContent (.jobj [
          ("iso", .jstr (pyNowTz env off).isoformat),
          ("formatted", .jstr (pyNowTz env off).strftimeYmdHms),
          ("timezone", .jstr tz),
          ("timestamp", .jnum ((pyTrunc ((pyNowTz env off).timestampQ env) : ℤ) : ℚ))]))⟩ := by
    simp [call_tool, callToolBody, getCurrentTimeBody, jeqStr, jget, hA, hne,
      pytzTimezone, hdb]
  refine ⟨?_, ?_, ?_, ?_, hpar, ?_⟩
  · rw [hcall]
    exact payloadStr_success _ _ _ _ rfl
  · rw [hasUtcOffset, hpar]
    simp [pyNowTz, dtOfWallUsec]
  · rw [hcall]
    exact payloadStr_success _ _ _ _ rfl
  · rw [hcall, htr]
    exact payloadNum_success _ _ _ _ rfl
  · intro dt' h'
    rw [hpar] at h'
    cases h'
    rw [hts]

/-- Witness for C2 (amended) in zone Asia/Shanghai at the witness instant. -/
theorem C2_witness :
    envW.tzdb "Asia/Shanghai" = some 28800
    ∧ (pyNowTz envW 28800).epochUsec envW = envW.nowEpochUsec
    ∧ inRangeB (pyNowTz envW 28800) = true
    ∧ ((call_tool envW (.jstr "get_current_time")
          (.jobj [("timezone", .jstr "Asia/Shanghai")]) (.jnum 1)).payloadStr "iso"
        = some (pyNowTz envW 28800).isoformat
      ∧ hasUtcOffset ((pyNowTz envW 28800).isoformat) = true
      ∧ (call_tool envW (.jstr "get_current_time")
          (.jobj [("timezone", .jstr "Asia/Shanghai")]) (.jnum 1)).payloadStr "formatted"
        = some (pyNowTz envW 28800).strftimeYmdHms
      ∧ (call_tool envW (.jstr "get_current_time")
          (.jobj [("timezone", .jstr "Asia/Shanghai")]) (.jnum 1)).payloadNum "timestamp"
        = some ((⌊(envW.nowEpochUsec : ℚ) / 1000000⌋ : ℤ) : ℚ)
      ∧ fromisoformat ((pyNowTz envW 28800).isoformat) = some (pyNowTz envW 28800)
      ∧ ∀ dt' : PyDatetime, fromisoformat ((pyNowTz envW 28800).isoformat) = some dt' →
          ⌊dt'.timestampQ envW⌋ = ⌊(envW.nowEpochUsec : ℚ) / 1000000⌋) :=
  ⟨rfl, by decide, by decide,
    C2_current_time_fields envW (.jnum 1) [("timezone", .jstr "Asia/Shanghai")]
      "Asia/Shanghai" 28800 rfl (by decide) rfl (by decide) (by decide) (by decide)⟩

end TimeSync
